import Mathlib

/-!
Verification of curtin/block/clear_holders.py against its specification.

The module walks the sysfs holder graph of a block device bottom-up, running
layer-specific shutdown handlers, accumulating (rather than raising) I/O
errors, and verifying at the end that no holders remain.

The embedding below is a shallow, executable translation of the Python
source.  External collaborators (sysfs path resolution, directory listing,
realpath, file reads, process execution) are a structure of functions `Env`;
directory listings additionally take a clock so the live, externally-mutating
sysfs tree can answer differently at different times, and every call into the
walk threads a `SysState` holding the clock and a trace of observable
external effects (queries, utility invocations, handler entries).  Python
exceptions that escape a function are modelled with `Except`/`Outcome`;
recursion is modelled with explicit fuel, `Outcome.fuelOut` marking fuel
exhaustion.

`util.ForgiveIoError` is not part of the sources; it is modelled from the
spec: a guarded block catches an I/O failure, appends it to a shared ordered
list, and execution resumes after the block (not re-raised).  Consequently a
variable assigned only inside a guarded block remains unbound after a caught
failure, and a later reference to it raises Python's NameError
(UnboundLocalError); the embedding reflects this.
-/

set_option linter.unusedVariables false

namespace Curtin

/-- Python exceptions that can escape the functions of clear_holders.py:
NameError (UnboundLocalError) from reading a variable whose only assignment
was skipped by a caught exception, TypeError from unpacking the `None`
returned by the placeholder handlers, the re-raised ProcessExecutionError,
and the OSError raised by check_clear. -/
inductive PyExc where
  | nameError
  | typeError
  | procError (exit_code : Nat)
  | osError (msg : String)
deriving DecidableEq, Repr

/-- Errors collected (not raised) during the walk: caught I/O errors
(IOError/OSError, including the "missing or invalid contents" OSError
raised and immediately caught inside shutdown_lvm) and caught
ProcessExecutionErrors. -/
inductive Err where
  | io (msg : String)
  | proc (exit_code : Nat)
deriving DecidableEq, Repr

/-- Observable external effects, recorded in order: a holder-directory
listing (with the clock at which it was made), an invocation of the external
utility via util.subp, and entry into a layer handler. -/
inductive Ev where
  | query (path : String) (t : Nat)
  | subp (cmd : List String)
  | handler (type_name : String) (device : String)
deriving DecidableEq, Repr

/-- A deferred wipe action.  shutdown_lvm's final `return (None, ...)` never
actually produces one and the placeholder handlers crash before returning,
so no code path of the embedding constructs this type. -/
inductive Wipe where
  | mk
deriving DecidableEq, Repr

/-- Threaded state: the clock stamping holder-directory queries, and the
trace of observable external effects. -/
structure SysState where
  clock : Nat
  trace : List Ev
deriving DecidableEq, Repr

/-- Result of a fuel-indexed call: a Python return value, a Python
exception propagating out, or fuel exhaustion (the modelling artefact for
unbounded recursion). -/
inductive Outcome (α : Type) where
  | ok (a : α)
  | exc (e : PyExc)
  | fuelOut
deriving DecidableEq, Repr

/-- Result of the holder loop inside clear_holders: all holders processed
(`cleared`), a recursive clear reported failure (`failed`), an exception
propagating, or fuel exhaustion from a recursive call. -/
inductive LoopOut where
  | cleared (errs : List Err)
  | failed (errs : List Err)
  | exc (e : PyExc)
  | fuelOut
deriving DecidableEq, Repr

/-- The external world: block.sys_block_path, os.listdir of a holders
directory (clock-indexed: the live sysfs tree may answer differently at
different times), os.path.realpath, os.path.exists, util.load_file, and
util.subp (ok on exit 0, error carrying the nonzero exit code of the
ProcessExecutionError). -/
structure Env where
  sys_block_path : String → Except String String
  listdir : String → Nat → Except String (List String)
  realpath : String → Except String String
  path_exists : String → Bool
  load_file : String → Except String String
  subp : List String → Except Nat Unit

/-- Source: split_vg_lv_name.  The body is a stub: it ignores its input and
returns `(None, None)` (the FIXME comment defers the real implementation to
a block.lvm module that does not exist yet). -/
def split_vg_lv_name (full_name : String) : Option String × Option String :=
  (none, none)

/-- Python str() of an optional string, as used by `"{}/{}".format(...)`:
`None` formats as the string "None". -/
def pyStr : Option String → String
  | none => "None"
  | some v => v

/-- The path of the LVM identity file read by shutdown_lvm:
os.path.join(device, 'dm', 'name'). -/
def lvNameFile (device : String) : String := device ++ "/dm/name"

/-- The argument vector shutdown_lvm hands to util.subp, built from the
result of split_vg_lv_name on the file contents. -/
def lvCmd (full_name : String) : List String :=
  ["lvremove", "--force", "--force",
    pyStr (split_vg_lv_name full_name).1 ++ "/" ++ pyStr (split_vg_lv_name full_name).2]

/-- The errors shutdown_lvm's catcher holds after the guarded metadata block,
given that the identity file was readable: empty when both components parsed,
otherwise the caught "missing or has invalid contents" OSError. -/
def lvMetaErrs (device full_name : String) : List Err :=
  if (split_vg_lv_name full_name).1.isNone ∨ (split_vg_lv_name full_name).2.isNone then
    [Err.io ("file: " ++ lvNameFile device ++ " missing or has invalid contents")]
  else []

/-- Source: shutdown_lvm.  Reads `<device>/dm/name` inside a ForgiveIoError
block; a failed read is caught, leaving vg_name/lv_name unbound so that the
later `"{}/{}".format(vg_name, lv_name)` raises NameError.  A successful
read with an invalid parse raises OSError inside the block; it is caught and
recorded, and execution falls through to the lvremove invocation.  A nonzero
exit of the utility is appended to the caught list; exit code 5 is tolerated,
any other nonzero exit re-raises the ProcessExecutionError.  The returned
wipe action is always `none` (the final line is `return (None, catcher.caught)`). -/
def shutdown_lvm (env : Env) (device : String) (s : SysState) :
    SysState × Except PyExc (Option Wipe × List Err) :=
  match env.load_file (lvNameFile device) with
  | .error _ => (s, .error PyExc.nameError)
  | .ok full_name =>
    let caught := lvMetaErrs device full_name
    let cmd := lvCmd full_name
    let s1 : SysState := { clock := s.clock, trace := s.trace ++ [Ev.subp cmd] }
    match env.subp cmd with
    | .ok _ => (s1, .ok (none, caught))
    | .error code =>
      if code = 5 then (s1, .ok (none, caught ++ [Err.proc code]))
      else (s1, .error (PyExc.procError code))

/-- Source: shutdown_bcache.  The body is `pass`, i.e. it returns Python
`None` rather than a (wipe_cmd, errors) pair. -/
def shutdown_bcache (device : String) : Option (Option Wipe × List Err) := none

/-- Source: shutdown_mdadm.  The body is `pass`, i.e. it returns Python
`None` rather than a (wipe_cmd, errors) pair. -/
def shutdown_mdadm (device : String) : Option (Option Wipe × List Err) := none

/-- Source: get_holders.  Resolves the device inside a ForgiveIoError block;
if block.sys_block_path raises, `sysfs_path` is never assigned and the
following `if not sysfs_path:` raises NameError (UnboundLocalError).  If
resolution returns a falsy value the empty holder list is returned with the
so-far-caught errors.  Otherwise the holders directory is listed; a listing
failure is caught and returned as a collected error together with the empty
list. -/
def get_holders (env : Env) (device : String) (s : SysState) :
    SysState × Except PyExc (List String × List Err) :=
  match env.sys_block_path device with
  | .error _ => (s, .error PyExc.nameError)
  | .ok sysfs_path =>
    if sysfs_path = "" then (s, .ok ([], []))
    else
      match env.listdir (sysfs_path ++ "/holders") s.clock with
      | .error e =>
        ({ clock := s.clock + 1,
           trace := s.trace ++ [Ev.query (sysfs_path ++ "/holders") s.clock] },
         .ok ([], [Err.io e]))
      | .ok hs =>
        ({ clock := s.clock + 1,
           trace := s.trace ++ [Ev.query (sysfs_path ++ "/holders") s.clock] },
         .ok (hs, []))

/-- The `with catcher: device = block.sys_block_path(device)` prologue of
clear_holders: on success the device is replaced by its canonical sysfs
path; a caught failure leaves the original name and records the error. -/
def resolveDev (env : Env) (device : String) : String × List Err :=
  match env.sys_block_path device with
  | .ok p => (p, [])
  | .error e => (device, [Err.io e])

/-- The iteration order of clear_holders' holder_types dict:
bcache, md, dm (insertion order). -/
def holder_types : List String := ["bcache", "md", "dm"]

/-- One entry of the handler dispatch loop: the handler for the given marker
is called on the device.  shutdown_bcache and shutdown_mdadm return `None`,
which the caller's tuple unpacking `(wipe_cmd, _err) = handler(device)`
turns into a TypeError; shutdown_lvm returns an actual pair. -/
def callHandler (env : Env) (type_name device : String) (s : SysState) :
    SysState × Except PyExc (Option Wipe × List Err) :=
  let s1 : SysState := { clock := s.clock, trace := s.trace ++ [Ev.handler type_name device] }
  if type_name = "dm" then shutdown_lvm env device s1
  else
    match (if type_name = "bcache" then shutdown_bcache device else shutdown_mdadm device) with
    | none => (s1, .error PyExc.typeError)
    | some r => (s1, .ok r)

/-- The handler dispatch loop of clear_holders: for each marker name whose
subdirectory exists under the device, call its handler, extend the caught
errors, and collect any non-None wipe command.  A handler exception
propagates. -/
def runHandlers (env : Env) :
    List String → String → List Err → List Wipe → SysState →
    SysState × Except PyExc (List Wipe × List Err)
  | [], _, acc, wipes, s => (s, .ok (wipes, acc))
  | ty :: tys, device, acc, wipes, s =>
    if env.path_exists (device ++ "/" ++ ty) then
      match callHandler env ty device s with
      | (s', .error e) => (s', .error e)
      | (s', .ok (w, errs)) =>
        let wipes' := match w with
          | some wc => wipes ++ [wc]
          | none => wipes
        runHandlers env tys device (acc ++ errs) wipes' s'
    else runHandlers env tys device acc wipes s

/-- The tail of clear_holders once every holder has been processed: run the
handler dispatch loop, run the (no-op) wipe loop, re-query the holders, and
return `(len(holders) == 0 and len(_err) == 0, catcher.caught)`. -/
def finishNode (env : Env) (device : String) (acc : List Err) (s : SysState) :
    SysState × Outcome (Bool × List Err) :=
  match runHandlers env holder_types device acc [] s with
  | (s3, .error e) => (s3, Outcome.exc e)
  | (s3, .ok (_wipes, errs3)) =>
    match get_holders env device s3 with
    | (s4, .error e) => (s4, Outcome.exc e)
    | (s4, .ok (holders2, errsF)) =>
      (s4, Outcome.ok (holders2.isEmpty && errsF.isEmpty, errs3 ++ errsF))

/-- The per-holder loop of clear_holders, parametric in the recursive clear
(`clear` is `clear_holders env fuel`).  Each holder's realpath is computed
inside a ForgiveIoError block with `holder_realpath` pre-initialised to
None, so a caught failure records the error and the holder is skipped, as is
a falsy realpath.  A resolved holder is cleared recursively; its errors are
accumulated, and a False result aborts the loop immediately. -/
def clearLoop (env : Env)
    (clear : String → SysState → SysState × Outcome (Bool × List Err)) :
    String → List String → List Err → SysState → SysState × LoopOut
  | _, [], acc, s => (s, LoopOut.cleared acc)
  | device, h :: hs, acc, s =>
    match env.realpath (device ++ "/holders/" ++ h) with
    | .error e => clearLoop env clear device hs (acc ++ [Err.io e]) s
    | .ok p =>
      if p = "" then clearLoop env clear device hs acc s
      else
        match clear p s with
        | (s', Outcome.fuelOut) => (s', LoopOut.fuelOut)
        | (s', Outcome.exc e) => (s', LoopOut.exc e)
        | (s', Outcome.ok (res, errsC)) =>
          if res then clearLoop env clear device hs (acc ++ errsC) s'
          else (s', LoopOut.failed (acc ++ errsC))

/-- Source: clear_holders.  Resolve the device (a caught failure keeps the
original name and records the error), query its holders (a NameError from
get_holders propagates), return `(True, caught)` immediately when the holder
list is empty, otherwise clear every holder recursively — a recursive
failure returns `(False, caught)` at once — and only then run the layer
handlers, the wipe loop and the final holder re-query. -/
def clear_holders (env : Env) : Nat → String → SysState → SysState × Outcome (Bool × List Err)
  | 0, _, s => (s, Outcome.fuelOut)
  | fuel + 1, device0, s0 =>
    let rd := resolveDev env device0
    match get_holders env rd.1 s0 with
    | (s1, .error e) => (s1, Outcome.exc e)
    | (s1, .ok (holders, errsH)) =>
      if holders.isEmpty then (s1, Outcome.ok (true, rd.2 ++ errsH))
      else
        match clearLoop env (clear_holders env fuel) rd.1 holders (rd.2 ++ errsH) s1 with
        | (s2, LoopOut.exc e) => (s2, Outcome.exc e)
        | (s2, LoopOut.fuelOut) => (s2, Outcome.fuelOut)
        | (s2, LoopOut.failed errs2) => (s2, Outcome.ok (false, errs2))
        | (s2, LoopOut.cleared errs2) => finishNode env rd.1 errs2 s2

/-! ### Concrete environments used to instantiate the theorems -/

/-- The initial threaded state: clock 0, empty trace. -/
def st0 : SysState := { clock := 0, trace := [] }

/-- An environment exercising only shutdown_lvm: the identity file read
yields `contents`, the external utility invocation yields `subpRes`; the
graph-walk primitives all fail (they are never consulted by shutdown_lvm). -/
def envLvm (contents : Except String String) (subpRes : Except Nat Unit) : Env where
  sys_block_path := fun _ => .error "ENOENT"
  listdir := fun _ _ => .error "ENOENT"
  realpath := fun _ => .error "ENOENT"
  path_exists := fun _ => false
  load_file := fun _ => contents
  subp := fun _ => subpRes

/-- A device "d" whose sysfs node "/sys/d" has the single holder "h"
resolving to "/sys/h", which has no holders of its own; no layer markers
anywhere.  The holder listing of "/sys/d" answers ["h"] at every clock, so
after the (action-free) recursive clear the final re-query still sees the
holder: clear_holders returns (False, []) — failure with an empty error
list. -/
def envStatic : Env where
  sys_block_path := fun x =>
    if x = "d" ∨ x = "/sys/d" then .ok "/sys/d"
    else if x = "/sys/h" then .ok "/sys/h"
    else .error "ENOENT"
  listdir := fun p _ =>
    if p = "/sys/d/holders" then .ok ["h"]
    else if p = "/sys/h/holders" then .ok []
    else .error "ENOENT"
  realpath := fun x => if x = "/sys/d/holders/h" then .ok "/sys/h" else .error "ENOENT"
  path_exists := fun _ => false
  load_file := fun _ => .error "ENOENT"
  subp := fun _ => .error 1

/-- Like envStatic, but the holder "h" of "/sys/d" vanishes after the first
query (the listing answers ["h"] at clock 0 and [] later), so the walk
reaches its final verification with no holders remaining and no errors. -/
def envVanish : Env where
  sys_block_path := fun x =>
    if x = "d" ∨ x = "/sys/d" then .ok "/sys/d"
    else if x = "/sys/h" then .ok "/sys/h"
    else .error "ENOENT"
  listdir := fun p t =>
    if p = "/sys/d/holders" then (if t = 0 then .ok ["h"] else .ok [])
    else if p = "/sys/h/holders" then .ok []
    else .error "ENOENT"
  realpath := fun x => if x = "/sys/d/holders/h" then .ok "/sys/h" else .error "ENOENT"
  path_exists := fun _ => false
  load_file := fun _ => .error "ENOENT"
  subp := fun _ => .error 1

/-- Device "zq" resolving to "/sys/d" with holder "h" (no holders of its
own); the final re-query of "/sys/d" fails with the I/O error "boom", so
clear_holders returns (False, [Err.io "boom"]). -/
def envFinalErr : Env where
  sys_block_path := fun x =>
    if x = "zq" ∨ x = "/sys/d" then .ok "/sys/d"
    else if x = "/sys/h" then .ok "/sys/h"
    else .error "ENOENT"
  listdir := fun p t =>
    if p = "/sys/d/holders" then (if t = 0 then .ok ["h"] else .error "boom")
    else if p = "/sys/h/holders" then .ok []
    else .error "ENOENT"
  realpath := fun x => if x = "/sys/d/holders/h" then .ok "/sys/h" else .error "ENOENT"
  path_exists := fun _ => false
  load_file := fun _ => .error "ENOENT"
  subp := fun _ => .error 1

/-- A three-level stack d → h → k: "/sys/d" is held by "h" (→ "/sys/h"),
which is held by "k" (→ "/sys/k"), which has no holders.  Listings are
static, so the recursive clear of "/sys/h" ends with its holder "k" still
present and reports failure, making the recursive clear of a holder of
"/sys/d" fail. -/
def envChainFail : Env where
  sys_block_path := fun x =>
    if x = "d" ∨ x = "/sys/d" then .ok "/sys/d"
    else if x = "/sys/h" then .ok "/sys/h"
    else if x = "/sys/k" then .ok "/sys/k"
    else .error "ENOENT"
  listdir := fun p _ =>
    if p = "/sys/d/holders" then .ok ["h"]
    else if p = "/sys/h/holders" then .ok ["k"]
    else if p = "/sys/k/holders" then .ok []
    else .error "ENOENT"
  realpath := fun x =>
    if x = "/sys/d/holders/h" then .ok "/sys/h"
    else if x = "/sys/h/holders/k" then .ok "/sys/k"
    else .error "ENOENT"
  path_exists := fun _ => false
  load_file := fun _ => .error "ENOENT"
  subp := fun _ => .error 1

/-- A device "d" (→ "/sys/d") whose holder listing is empty from the very
first query, while the node itself carries a dm layer marker and a readable
identity file: the handler, were it invoked, would be observable both in the
trace and through the utility invocation. -/
def envEmptyMarked : Env where
  sys_block_path := fun x =>
    if x = "d" ∨ x = "/sys/d" then .ok "/sys/d" else .error "ENOENT"
  listdir := fun p _ => if p = "/sys/d/holders" then .ok [] else .error "ENOENT"
  realpath := fun _ => .error "ENOENT"
  path_exists := fun p => p = "/sys/d/dm"
  load_file := fun _ => .ok "myvg-mylv"
  subp := fun _ => .ok ()

/-- An environment whose sysfs path resolution always raises. -/
def envResolveFail : Env where
  sys_block_path := fun _ => .error "ENOENT"
  listdir := fun _ _ => .error "ENOENT"
  realpath := fun _ => .error "ENOENT"
  path_exists := fun _ => false
  load_file := fun _ => .error "ENOENT"
  subp := fun _ => .error 1

/-- An environment where "d" resolves to "/sys/d" but the holders
subdirectory is absent: listing it raises ENOENT, which get_holders catches
and records. -/
def envListFail : Env where
  sys_block_path := fun x =>
    if x = "d" ∨ x = "/sys/d" then .ok "/sys/d" else .error "ENOENT"
  listdir := fun _ _ => .error "ENOENT holders"
  realpath := fun _ => .error "ENOENT"
  path_exists := fun _ => false
  load_file := fun _ => .error "ENOENT"
  subp := fun _ => .error 1

/-- An acyclic two-node holder graph on which every name resolves to
itself: "d" is held by "h", "h" holds nothing, and nothing else resolves.
Used to instantiate the termination theorem. -/
def envAcyclic : Env where
  sys_block_path := fun x =>
    if x = "d" then .ok "d" else if x = "h" then .ok "h" else .error "ENOENT"
  listdir := fun p _ =>
    if p = "d/holders" then .ok ["h"]
    else if p = "h/holders" then .ok []
    else .error "ENOENT"
  realpath := fun x => if x = "d/holders/h" then .ok "h" else .error "ENOENT"
  path_exists := fun _ => false
  load_file := fun _ => .error "ENOENT"
  subp := fun _ => .error 1

/-- The measure witnessing acyclicity of envAcyclic's holder graph. -/
def muAcyclic (x : String) : Nat := if x = "d" then 1 else 0

/-- A one-node cyclic holder graph: "c" resolves to itself and is its own
holder.  The walk recurses on it unboundedly. -/
def envCyclic : Env where
  sys_block_path := fun x => if x = "c" then .ok "c" else .error "ENOENT"
  listdir := fun p _ => if p = "c/holders" then .ok ["c"] else .error "ENOENT"
  realpath := fun x => if x = "c/holders/c" then .ok "c" else .error "ENOENT"
  path_exists := fun _ => false
  load_file := fun _ => .error "ENOENT"
  subp := fun _ => .error 1

/-- Python str() of a collected error, as interpolated by check_clear's
format string. -/
def errStr : Err → String
  | Err.io m => m
  | Err.proc code => "command exited " ++ toString code

/-- Source: check_clear.  Runs clear_holders; logs each collected error with
`for e in _err`; when the result is False, the raise line interpolates the
loop variable `e` — the last collected error — so with a nonempty error list
it raises OSError mentioning that error (not the device), and with an empty
error list `e` was never bound and the raise line itself raises NameError. -/
def check_clear (env : Env) (fuel : Nat) (device : String) (s : SysState) :
    SysState × Outcome Unit :=
  match clear_holders env fuel device s with
  | (s', Outcome.fuelOut) => (s', Outcome.fuelOut)
  | (s', Outcome.exc e) => (s', Outcome.exc e)
  | (s', Outcome.ok (res, errs)) =>
    if res then (s', Outcome.ok ())
    else
      match errs.getLast? with
      | none => (s', Outcome.exc PyExc.nameError)
      | some e =>
        (s', Outcome.exc (PyExc.osError
          ("could not clear holders for device: " ++ errStr e)))

/-- Recogniser for handler-entry events in a trace: true exactly on
`Ev.handler`. -/
def isHandlerEv : Ev → Bool
  | Ev.handler _ _ => true
  | _ => false

/-! ### Helper lemmas -/

/-- get_holders returned a nonempty holder list only if path resolution
succeeded with a nonempty path and the holders-directory listing succeeded
with exactly that list. -/
theorem get_holders_ok_nonempty (env : Env) (device : String) (s s1 : SysState)
    (holders : List String) (errsH : List Err)
    (hq : get_holders env device s = (s1, .ok (holders, errsH)))
    (hne : holders ≠ []) :
    ∃ p, env.sys_block_path device = .ok p ∧ p ≠ ""
      ∧ env.listdir (p ++ "/holders") s.clock = .ok holders := by
  unfold get_holders at hq
  split at hq
  next m heq => simp at hq
  next p heq =>
    split at hq
    next hp => simp at hq; exact absurd hq.2.1 hne
    next hp =>
      split at hq
      next m hld => simp at hq; exact absurd hq.2.1 hne
      next hs2 hld =>
        simp at hq
        exact ⟨p, heq, hp, by rw [← hq.2.1]; exact hld⟩

/-- finishNode never reports fuel exhaustion: the handler loop and the final
re-query return Except values, and every branch maps them into ok or exc. -/
theorem finishNode_no_fuelOut (env : Env) (device : String) (acc : List Err)
    (s : SysState) : (finishNode env device acc s).2 ≠ Outcome.fuelOut := by
  unfold finishNode
  split
  next s3 e heq => simp
  next s3 w errs3 heq =>
    split
    next s4 e2 heq2 => simp
    next s4 h2 e2 heq2 => simp

/-- The holder loop reports fuel exhaustion only if some recursive clear
does: if every holder that resolves to a nonempty realpath has a
non-fuel-exhausting clear, the loop does not exhaust fuel. -/
theorem clearLoop_no_fuelOut (env : Env)
    (clear : String → SysState → SysState × Outcome (Bool × List Err))
    (device : String) :
    ∀ (hs : List String) (acc : List Err) (s : SysState),
      (∀ h ∈ hs, ∀ c, env.realpath (device ++ "/holders/" ++ h) = .ok c → c ≠ "" →
        ∀ s', (clear c s').2 ≠ Outcome.fuelOut) →
      (clearLoop env clear device hs acc s).2 ≠ LoopOut.fuelOut := by
  intro hs
  induction hs with
  | nil =>
    intro acc s hyp
    simp [clearLoop]
  | cons h t ih =>
    intro acc s hyp
    simp only [clearLoop]
    split
    next e hrp => exact ih _ s fun x hx => hyp x (List.mem_cons_of_mem _ hx)
    next p hrp =>
      split
      next hp => exact ih _ s fun x hx => hyp x (List.mem_cons_of_mem _ hx)
      next hp =>
        split
        next s' heq =>
          exact absurd (by rw [heq]) (hyp h (List.mem_cons_self _ _) p hrp hp s)
        next s' e heq => simp
        next s' res errsC heq =>
          split
          next hres => exact ih _ s' fun x hx => hyp x (List.mem_cons_of_mem _ hx)
          next hres => simp

/-! ### The claims -/

/-- C1: for every node, clear_holders runs the node's own layer handlers
only after every holder discovered for that node has been recursively
cleared with success; if any recursive clear of a holder reports failure,
the walk returns `(False, errs)` immediately — the returned state is exactly
the state at the moment of the failing child, so no handler of the node runs
and no further external effect is traced — while when the holder loop clears
every holder, the call continues as `finishNode`, which runs the node's
handlers strictly after the loop. -/
theorem c1_bottom_up (env : Env) (fuel : Nat) (device : String)
    (s s1 s2 : SysState) (holders : List String) (errsH : List Err)
    (hq : get_holders env (resolveDev env device).1 s = (s1, .ok (holders, errsH)))
    (hne : holders ≠ []) :
    (∀ errs2, clearLoop env (clear_holders env fuel) (resolveDev env device).1 holders
        ((resolveDev env device).2 ++ errsH) s1 = (s2, LoopOut.failed errs2) →
      clear_holders env (fuel + 1) device s = (s2, Outcome.ok (false, errs2)))
    ∧ (∀ errs2, clearLoop env (clear_holders env fuel) (resolveDev env device).1 holders
        ((resolveDev env device).2 ++ errsH) s1 = (s2, LoopOut.cleared errs2) →
      clear_holders env (fuel + 1) device s
        = finishNode env (resolveDev env device).1 errs2 s2) := by
  obtain ⟨h0, t, rfl⟩ : ∃ a l, holders = a :: l := by
    cases holders with
    | nil => exact absurd rfl hne
    | cons a l => exact ⟨a, l, rfl⟩
  constructor <;> (intro errs2 hl; simp [clear_holders, hq, hl])

/-- Witness for C1 on the static three-level stack d → h → k: the recursive
clear of holder "h" of "/sys/d" fails (its own holder "k" persists), and the
whole walk returns failure from exactly that state — four holder queries and
no handler entry in the trace. -/
theorem c1_witness :
    clear_holders envChainFail 4 "d" st0
      = ({ clock := 4,
           trace := [Ev.query "/sys/d/holders" 0, Ev.query "/sys/h/holders" 1,
                     Ev.query "/sys/k/holders" 2, Ev.query "/sys/h/holders" 3] },
         Outcome.ok (false, [])) := by
  exact (c1_bottom_up envChainFail 3 "d" st0
    { clock := 1, trace := [Ev.query "/sys/d/holders" 0] }
    { clock := 4,
      trace := [Ev.query "/sys/d/holders" 0, Ev.query "/sys/h/holders" 1,
                Ev.query "/sys/k/holders" 2, Ev.query "/sys/h/holders" 3] }
    ["h"] [] rfl (by decide)).1 [] rfl

/-- C2: whenever the external removal utility exits nonzero inside
shutdown_lvm, the ProcessExecutionError is appended to the collected errors;
exit code 5 is tolerated (the handler returns normally), while any other
nonzero exit code re-raises the ProcessExecutionError, which no caller of
the handler catches, aborting the walk. -/
theorem c2_exit_code_dichotomy (env : Env) (device : String) (s : SysState)
    (full_name : String) (code : Nat)
    (hread : env.load_file (lvNameFile device) = .ok full_name)
    (hsub : env.subp (lvCmd full_name) = .error code) :
    (code = 5 →
      shutdown_lvm env device s
        = ({ clock := s.clock, trace := s.trace ++ [Ev.subp (lvCmd full_name)] },
           .ok (none, lvMetaErrs device full_name ++ [Err.proc code])))
    ∧ (code ≠ 5 →
      shutdown_lvm env device s
        = ({ clock := s.clock, trace := s.trace ++ [Ev.subp (lvCmd full_name)] },
           .error (PyExc.procError code))) := by
  constructor <;> (intro hc; simp [shutdown_lvm, hread, hsub, hc])

/-- Witness for C2 at exit code 5: the failure is recorded after the caught
metadata fault and the handler returns normally. -/
theorem c2_witness :
    shutdown_lvm (envLvm (.ok "myvg-mylv") (.error 5)) "dev" st0
      = ({ clock := 0, trace := [Ev.subp ["lvremove", "--force", "--force", "None/None"]] },
         .ok (none, [Err.io "file: dev/dm/name missing or has invalid contents",
                     Err.proc 5])) := by
  exact (c2_exit_code_dichotomy (envLvm (.ok "myvg-mylv") (.error 5)) "dev" st0
    "myvg-mylv" 5 rfl rfl).1 rfl

/-- C3 (code bug): the claim says a node with a missing, unreadable or
invalidly parsed dm/name file makes shutdown_lvm record a metadata fault and
return without invoking the removal utility.  The code does neither: when
the file is missing or unreadable the caught read failure leaves
vg_name/lv_name unbound and the later format call raises NameError (first
conjunct: no utility invocation appears in the trace, but no fault is
returned either — the exception propagates); when the file reads
successfully, the stubbed split_vg_lv_name makes the parse fail, the fault
is recorded, and the handler falls through the caught OSError and still
invokes `lvremove --force --force None/None` (second conjunct: the subp
event is in the trace). -/
theorem c3_metadata_fault_behavior :
    shutdown_lvm (envLvm (.error "ENOENT") (.ok ())) "dev" st0
      = (st0, .error PyExc.nameError)
    ∧ shutdown_lvm (envLvm (.ok "myvg-mylv") (.ok ())) "dev" st0
      = ({ clock := 0, trace := [Ev.subp ["lvremove", "--force", "--force", "None/None"]] },
         .ok (none, [Err.io "file: dev/dm/name missing or has invalid contents"])) :=
  ⟨rfl, rfl⟩

/-- C4 (code bug): for a dm/name file reading `myvg-mylv` the claim expects
exactly one invocation `lvremove --force --force myvg/mylv` and, on exit 0,
a deferred wipe action with no errors.  The code's split_vg_lv_name is a
stub returning (None, None), so the handler records a metadata fault,
invokes `lvremove --force --force None/None` instead, and returns no wipe
action together with that error. -/
theorem c4_lvremove_argv :
    shutdown_lvm (envLvm (.ok "myvg-mylv") (.ok ())) "devB" st0
      = ({ clock := 0, trace := [Ev.subp ["lvremove", "--force", "--force", "None/None"]] },
         .ok (none, [Err.io "file: devB/dm/name missing or has invalid contents"]))
    ∧ lvCmd "myvg-mylv" ≠ ["lvremove", "--force", "--force", "myvg/mylv"]
    ∧ split_vg_lv_name "myvg-mylv" = (none, none) :=
  ⟨rfl, by decide, rfl⟩

/-- C5 counterexample: on a node whose first holder query yields the empty
set while a dm layer marker is present, clear_holders returns success but
its trace contains no handler entry at all (and no utility invocation): the
early `return (True, catcher.caught)` skips the handler step, contradicting
the claim that the layer handlers are still invoked before returning. -/
theorem c5_counterexample :
    clear_holders envEmptyMarked 3 "d" st0
      = ({ clock := 1, trace := [Ev.query "/sys/d/holders" 0] }, Outcome.ok (true, []))
    ∧ envEmptyMarked.path_exists "/sys/d/dm" = true
    ∧ ((clear_holders envEmptyMarked 3 "d" st0).1.trace.filter isHandlerEv) = [] :=
  ⟨rfl, rfl, rfl⟩

/-- C5 (amended): for every node whose first holder query yields an empty
holder set, clear_holders returns success immediately — with the errors
collected so far — and the returned state is exactly the post-query state,
so no layer handler is invoked even when a marker is present on the node. -/
theorem c5_amended (env : Env) (fuel : Nat) (device : String) (s s1 : SysState)
    (errsH : List Err)
    (hq : get_holders env (resolveDev env device).1 s = (s1, .ok ([], errsH))) :
    clear_holders env (fuel + 1) device s
      = (s1, Outcome.ok (true, (resolveDev env device).2 ++ errsH)) := by
  simp [clear_holders, hq]

/-- Witness for C5 (amended) on envEmptyMarked. -/
theorem c5_witness :
    clear_holders envEmptyMarked 3 "d" st0
      = ({ clock := 1, trace := [Ev.query "/sys/d/holders" 0] }, Outcome.ok (true, [])) :=
  c5_amended envEmptyMarked 2 "d" st0
    { clock := 1, trace := [Ev.query "/sys/d/holders" 0] } [] rfl

/-- C6 counterexample: get_holders is claimed never to raise and to record
no error for a legitimately absent holders directory.  In fact (first
conjunct) a failing sysfs path resolution is caught, leaving `sysfs_path`
unbound, and the following `if not sysfs_path:` raises NameError; and
(second conjunct) an absent holders directory makes os.listdir raise
ENOENT, which is caught and recorded in the returned error log. -/
theorem c6_counterexample :
    get_holders envResolveFail "d" st0 = (st0, .error PyExc.nameError)
    ∧ get_holders envListFail "d" st0
      = ({ clock := 1, trace := [Ev.query "/sys/d/holders" 0] },
         .ok ([], [Err.io "ENOENT holders"])) :=
  ⟨rfl, rfl⟩

/-- C6 (amended): get_holders raises (NameError) exactly when the sysfs
path resolution fails; in every other case it does not raise: a failing
directory listing — an absent holders subdirectory included — is captured
into the returned error log with an empty holder list, and a successful
listing is returned with no error. -/
theorem c6_amended (env : Env) (device : String) (s : SysState) :
    (∀ m, env.sys_block_path device = .error m →
      get_holders env device s = (s, .error PyExc.nameError))
    ∧ (∀ p m, env.sys_block_path device = .ok p → p ≠ "" →
        env.listdir (p ++ "/holders") s.clock = .error m →
        get_holders env device s
          = ({ clock := s.clock + 1,
               trace := s.trace ++ [Ev.query (p ++ "/holders") s.clock] },
             .ok ([], [Err.io m])))
    ∧ (∀ p hs, env.sys_block_path device = .ok p → p ≠ "" →
        env.listdir (p ++ "/holders") s.clock = .ok hs →
        get_holders env device s
          = ({ clock := s.clock + 1,
               trace := s.trace ++ [Ev.query (p ++ "/holders") s.clock] },
             .ok (hs, []))) := by
  refine ⟨?_, ?_, ?_⟩
  · intro m hm
    simp [get_holders, hm]
  · intro p m hp hpne hld
    simp [get_holders, hp, hpne, hld]
  · intro p hs hp hpne hld
    simp [get_holders, hp, hpne, hld]

/-- Witness for C6 (amended): the NameError case at a concrete environment. -/
theorem c6_witness :
    get_holders envResolveFail "vdb" st0 = (st0, .error PyExc.nameError) :=
  (c6_amended envResolveFail "vdb" st0).1 "ENOENT" rfl

/-- C7: whenever clear_holders reaches its final verification step (holders
were found, all recursive clears succeeded, the handler loop ran without
raising, and the final re-query returned), the returned success boolean is
true if and only if the final holder re-query returned zero holders and
recorded zero errors. -/
theorem c7_final_verdict (env : Env) (fuel : Nat) (device : String)
    (s s1 s2 s3 s4 : SysState) (holders : List String)
    (errsH errs2 errs3 : List Err) (wipes : List Wipe)
    (holdersF : List String) (errsF : List Err)
    (hq : get_holders env (resolveDev env device).1 s = (s1, .ok (holders, errsH)))
    (hne : holders ≠ [])
    (hloop : clearLoop env (clear_holders env fuel) (resolveDev env device).1 holders
        ((resolveDev env device).2 ++ errsH) s1 = (s2, LoopOut.cleared errs2))
    (hhand : runHandlers env holder_types (resolveDev env device).1 errs2 [] s2
        = (s3, .ok (wipes, errs3)))
    (hfin : get_holders env (resolveDev env device).1 s3 = (s4, .ok (holdersF, errsF))) :
    clear_holders env (fuel + 1) device s
      = (s4, Outcome.ok (holdersF.isEmpty && errsF.isEmpty, errs3 ++ errsF))
    ∧ ((holdersF.isEmpty && errsF.isEmpty) = true ↔ holdersF = [] ∧ errsF = []) := by
  obtain ⟨h0, t, rfl⟩ : ∃ a l, holders = a :: l := by
    cases holders with
    | nil => exact absurd rfl hne
    | cons a l => exact ⟨a, l, rfl⟩
  constructor
  · simp [clear_holders, hq, hloop, finishNode, hhand, hfin]
  · constructor
    · intro hb
      have h1 := (Bool.and_eq_true _ _).mp hb
      exact ⟨List.isEmpty_iff.mp h1.1, List.isEmpty_iff.mp h1.2⟩
    · rintro ⟨rfl, rfl⟩
      rfl

/-- Witness for C7 on envVanish: the holder "h" of "/sys/d" vanishes after
the first query, so the final re-query sees zero holders with zero errors
and the walk returns success. -/
theorem c7_witness :
    clear_holders envVanish 3 "d" st0
      = ({ clock := 3,
           trace := [Ev.query "/sys/d/holders" 0, Ev.query "/sys/h/holders" 1,
                     Ev.query "/sys/d/holders" 2] },
         Outcome.ok (true, [])) :=
  (c7_final_verdict envVanish 2 "d" st0
    { clock := 1, trace := [Ev.query "/sys/d/holders" 0] }
    { clock := 2, trace := [Ev.query "/sys/d/holders" 0, Ev.query "/sys/h/holders" 1] }
    { clock := 2, trace := [Ev.query "/sys/d/holders" 0, Ev.query "/sys/h/holders" 1] }
    { clock := 3,
      trace := [Ev.query "/sys/d/holders" 0, Ev.query "/sys/h/holders" 1,
                Ev.query "/sys/d/holders" 2] }
    ["h"] [] [] [] [] [] []
    rfl (by decide) rfl rfl rfl).1

/-- C8 counterexample: on a device named "zq" whose clear fails with the
single collected error "boom", check_clear raises the "could not clear
holders" OSError, but its message interpolates the last collected error,
not the device: the message is not the one the claim's wording — a fault
referencing the device that could not be cleared — would produce. -/
theorem c8_counterexample :
    check_clear envFinalErr 3 "zq" st0
      = ({ clock := 3,
           trace := [Ev.query "/sys/d/holders" 0, Ev.query "/sys/h/holders" 1,
                     Ev.query "/sys/d/holders" 2] },
         Outcome.exc (PyExc.osError "could not clear holders for device: boom"))
    ∧ "could not clear holders for device: boom"
        ≠ "could not clear holders for device: zq" :=
  ⟨rfl, by decide⟩

/-- C8 (amended): whenever clear_holders returns (False, errs), check_clear
logs each error in order and raises; with a nonempty errs the raised OSError
message references the last collected error (the final value of the logging
loop's variable), not the device, and with empty errs the raise line itself
fails with NameError because the loop variable was never bound. -/
theorem c8_amended (env : Env) (fuel : Nat) (device : String) (s s' : SysState)
    (errs : List Err)
    (h : clear_holders env fuel device s = (s', Outcome.ok (false, errs))) :
    check_clear env fuel device s
      = (s', match errs.getLast? with
          | none => Outcome.exc PyExc.nameError
          | some e => Outcome.exc (PyExc.osError
              ("could not clear holders for device: " ++ errStr e))) := by
  simp only [check_clear, h]
  cases errs.getLast? <;> rfl

/-- Witness for C8 (amended) on envFinalErr. -/
theorem c8_witness :
    check_clear envFinalErr 3 "zq" st0
      = ({ clock := 3,
           trace := [Ev.query "/sys/d/holders" 0, Ev.query "/sys/h/holders" 1,
                     Ev.query "/sys/d/holders" 2] },
         Outcome.exc (PyExc.osError
           ("could not clear holders for device: " ++ errStr (Err.io "boom")))) :=
  c8_amended envFinalErr 3 "zq" st0
    { clock := 3,
      trace := [Ev.query "/sys/d/holders" 0, Ev.query "/sys/h/holders" 1,
                Ev.query "/sys/d/holders" 2] }
    [Err.io "boom"] rfl

/-- C9: for every environment whose holder listings are time-independent
(a fixed holder graph) and admit a measure that strictly decreases from a
node to each holder it recurses into (acyclicity of the holder relation,
with the measure bounding the holder-stack depth), clear_holders terminates
without exhausting fuel whenever the fuel exceeds the measure of the start
node: the recursion depth is bounded by the holder-stack depth.  The walk
itself contains no cycle guard, so this decrease hypothesis is the
precondition under which termination holds. -/
theorem c9_termination (env : Env) (mu : String → Nat)
    (hstatic : ∀ p t, env.listdir p t = env.listdir p 0)
    (hdec : ∀ d p hs h c, env.sys_block_path (resolveDev env d).1 = .ok p → p ≠ "" →
      env.listdir (p ++ "/holders") 0 = .ok hs → h ∈ hs →
      env.realpath ((resolveDev env d).1 ++ "/holders/" ++ h) = .ok c → c ≠ "" →
      mu c < mu d) :
    ∀ (fuel : Nat) (d : String) (s : SysState), mu d < fuel →
      (clear_holders env fuel d s).2 ≠ Outcome.fuelOut := by
  intro fuel
  induction fuel with
  | zero => intro d s hlt; exact absurd hlt (Nat.not_lt_zero _)
  | succ fuel ih =>
    intro d s hlt
    simp only [clear_holders]
    split
    next s1 e hq => simp
    next s1 holders errsH hq =>
      split
      next hemp => simp
      next hemp =>
        have hne : holders ≠ [] := by
          intro h0
          rw [h0] at hemp
          simp at hemp
        obtain ⟨p, hsb, hp, hld⟩ :=
          get_holders_ok_nonempty env (resolveDev env d).1 s s1 holders errsH hq hne
        have hloop : (clearLoop env (clear_holders env fuel) (resolveDev env d).1
            holders ((resolveDev env d).2 ++ errsH) s1).2 ≠ LoopOut.fuelOut := by
          apply clearLoop_no_fuelOut
          intro h hmem c hrp hc s'
          have hmu : mu c < mu d :=
            hdec d p holders h c hsb hp
              (by rw [← hstatic (p ++ "/holders") s.clock]; exact hld) hmem hrp hc
          exact ih c s' (by omega)
        split
        next s2 e hcl => simp
        next s2 hcl => exact absurd (by rw [hcl]) hloop
        next s2 errs2 hcl => simp
        next s2 errs2 hcl => exact finishNode_no_fuelOut env (resolveDev env d).1 errs2 s2

/-- Witness for C9 on the acyclic two-node graph envAcyclic with measure
muAcyclic: fuel 2 exceeds the measure 1 of the start node, so the walk does
not exhaust fuel. -/
theorem c9_witness : (clear_holders envAcyclic 2 "d" st0).2 ≠ Outcome.fuelOut := by
  refine c9_termination envAcyclic muAcyclic (fun p t => rfl) ?_ 2 "d" st0 (by decide)
  intro d p hs h c hsb hp hld hmem hrp hc
  by_cases hd1 : d = "d"
  · subst hd1
    simp [envAcyclic, resolveDev] at hsb
    subst hsb
    simp [envAcyclic] at hld
    subst hld
    simp at hmem
    subst hmem
    simp [envAcyclic, resolveDev] at hrp
    subst hrp
    decide
  · by_cases hd2 : d = "h"
    · subst hd2
      simp [envAcyclic, resolveDev] at hsb
      subst hsb
      simp [envAcyclic] at hld
      subst hld
      simp at hmem
    · exfalso
      have hres : envAcyclic.sys_block_path (resolveDev envAcyclic d).1
          = .error "ENOENT" := by
        simp [envAcyclic, resolveDev, hd1, hd2]
      rw [hres] at hsb
      exact Except.noConfusion hsb

/-- C10 (code bug in check_clear): on the static graph envStatic the device
"d" keeps its holder "h" through a clean final re-query, so clear_holders
returns failure with an empty error list; check_clear's raise line then
references the logging loop's variable `e`, which was never bound, and the
call fails with NameError instead of the documented OSError. -/
theorem c10_nameError_on_empty_errors :
    clear_holders envStatic 3 "d" st0
      = ({ clock := 3,
           trace := [Ev.query "/sys/d/holders" 0, Ev.query "/sys/h/holders" 1,
                     Ev.query "/sys/d/holders" 2] },
         Outcome.ok (false, []))
    ∧ check_clear envStatic 3 "d" st0
      = ({ clock := 3,
           trace := [Ev.query "/sys/d/holders" 0, Ev.query "/sys/h/holders" 1,
                     Ev.query "/sys/d/holders" 2] },
         Outcome.exc PyExc.nameError) :=
  ⟨rfl, rfl⟩

end Curtin
